import Mathlib

/-!
Verification of the questionnaire data-cleaning engine
(`data_cleaner.py`, class `QuestionnaireCleaner`).

The embedding models a cell of the table as `Cell` (a string, a rational
number, or missing/NaN), a table as an ordered list of named columns, and
each cleaning method of the source as a Lean function over these.
External pandas adapters (datetime parsing, numeric parsing of strings,
string rendering of floats) are passed in as function parameters.
-/

/-- A cell of the raw or cleaned table: a string, a number (pandas numeric,
modelled as a rational), or missing (NaN/None). -/
inductive Cell where
  | str (s : String)
  | num (q : ℚ)
  | missing
deriving DecidableEq, Repr

/- ### Python string primitives used by the source -/

/-- Python `str.lower` restricted to the ASCII range, as used on the
ASCII headers and values of this dataset. -/
def pyLower (s : String) : String :=
  ⟨s.data.map Char.toLower⟩

/-- The whitespace characters stripped by Python `str.strip` and matched
by the regex class `\s`. -/
def pyIsSpace (c : Char) : Bool :=
  c = ' ' || c = '\t' || c = '\n' || c = '\r' || c = '\x0b' || c = '\x0c'

/-- Python `str.strip` (no argument): drop leading and trailing whitespace. -/
def pyStrip (s : String) : String :=
  ⟨((s.data.dropWhile pyIsSpace).reverse.dropWhile pyIsSpace).reverse⟩

/-- Helper for `pyTitle`: the boolean carries whether the previous
character was alphabetic. -/
def pyTitleAux : Bool → List Char → List Char
  | _, [] => []
  | prevAlpha, c :: cs =>
      (if c.isAlpha then (if prevAlpha then c.toLower else c.toUpper) else c)
        :: pyTitleAux c.isAlpha cs

/-- Python `str.title` (ASCII): uppercase every alphabetic character that
follows a non-alphabetic one, lowercase the rest. -/
def pyTitle (s : String) : String :=
  ⟨pyTitleAux false s.data⟩

/-- Python `str.replace(a, b)` for single characters. -/
def pyReplaceChar (a b : Char) (s : String) : String :=
  ⟨s.data.map (fun c => if c = a then b else c)⟩

/-- A word character for the regex classes `\w` and `\b` (ASCII). -/
def isWordChar (c : Char) : Bool :=
  c.isAlphanum || c = '_'

/- ### Rating columns: `_clean_ratings` -/

/-- `pd.to_numeric(series, errors='coerce')` on one cell: numbers pass
through, strings go through the numeric parser (`none` coerces to NaN),
missing stays missing. The parser itself is the pandas adapter `parse`. -/
def toNumericCell (parse : String → Option ℚ) : Cell → Cell
  | .str s => match parse s with
      | some q => .num q
      | none => .missing
  | .num q => .num q
  | .missing => .missing

/-- `Series.clip(lo, hi)` on one cell: numbers are clamped, NaN passes
through. -/
def clipCell (lo hi : ℚ) : Cell → Cell
  | .num q => .num (max lo (min q hi))
  | c => c

/-- `QuestionnaireCleaner._clean_ratings` (scale = 5):
`pd.to_numeric(series, errors='coerce').clip(1, 5)` value by value. -/
def clean_ratings (parse : String → Option ℚ) (col : List Cell) : List Cell :=
  (col.map (toNumericCell parse)).map (clipCell 1 5)

/-- Whether a cleaned rating cell is missing or a number in `[1, 5]`. -/
def ratingInRange : Cell → Bool
  | .missing => true
  | .num q => decide (1 ≤ q) && decide (q ≤ 5)
  | .str _ => false

/- ### Column resolution: `standard_columns` and `_standardize_columns` -/

/-- `QuestionnaireCleaner.standard_columns`: per canonical field, the
recognized header variants, in the dict's insertion order. -/
def standard_columns : List (String × List String) :=
  [ ("timestamp", ["timestamp", "date", "time", "datetime"]),
    ("department", ["which department are you in?", "department", "dept"]),
    ("job_role", ["role:", "job_role", "role"]),
    ("ai_tool", ["what ai tool(s) do you use most?", "ai_tool"]),
    ("usage_frequency", ["usage of ai tools", "usage_frequency"]),
    ("purpose", ["purpose of using ai tools", "purpose"]),
    ("ease_of_use", ["ease of use (rating 1-5, 5 = easiest)", "ease_of_use"]),
    ("time_saved",
      ["how efficiency do the ai tools works for your tasks? (5 = most efficient)",
       "time_saved"]),
    ("suggestions",
      ["any suggestions or improvement for us about the ai tools or our website ( projectfly )?",
       "suggestions"]) ]

/-- The normalized comparison key of `_standardize_columns`:
`str(col).lower().strip().replace(' ', '_')`. -/
def normKey (s : String) : String :=
  pyReplaceChar ' ' '_' (pyStrip (pyLower s))

/-- The canonical field assigned to a normalized key: the first field one
of whose variants has the same normalized key (the nested loop with
`break` in `_standardize_columns`). -/
def resolveKey (k : String) : Option String :=
  (standard_columns.find? (fun p => p.2.any (fun v => k = normKey v))).map (·.1)

/-- The output name `_standardize_columns` gives one input header: the
matched canonical field, or the header itself unchanged (pass-through). -/
def resolveHeader (h : String) : String :=
  (resolveKey (normKey h)).getD h

/- ### Regex machinery for the fixed patterns of the source -/

/-- Consume a literal: if `p` is a prefix of `s`, return the rest. -/
def consumeLit : List Char → List Char → Option (List Char)
  | [], s => some s
  | _, [] => none
  | c :: p, d :: s => if c = d then consumeLit p s else none

/-- Consume a literal given as a string. -/
def afterLit (p : String) (s : List Char) : Option (List Char) :=
  consumeLit p.data s

/-- `re.search`: does the position matcher `m` succeed at some suffix? -/
def searchFrom (m : List Char → Bool) : List Char → Bool
  | [] => m []
  | c :: t => m (c :: t) || searchFrom m t

/-- `re.search` for a plain literal pattern: substring containment. -/
def containsLit (p : String) (s : List Char) : Bool :=
  searchFrom (fun t => (afterLit p t).isSome) s

/-- Match `chat.?gpt` at a position. -/
def chatGptAt (s : List Char) : Bool :=
  match afterLit "chat" s with
  | none => false
  | some r =>
      (afterLit "gpt" r).isSome ||
      (match r with
       | [] => false
       | _ :: r2 => (afterLit "gpt" r2).isSome)

/-- Match `poe\b` at a position: `poe` then a word boundary. -/
def poeAt (s : List Char) : Bool :=
  match afterLit "poe" s with
  | none => false
  | some [] => true
  | some (c :: _) => !(isWordChar c)

/-- Match `canav?a` at a position. -/
def canvaAt (s : List Char) : Bool :=
  match afterLit "cana" s with
  | none => false
  | some r => (afterLit "a" r).isSome || (afterLit "va" r).isSome

/-- Match `mid.?journey` at a position. -/
def midjourneyAt (s : List Char) : Bool :=
  match afterLit "mid" s with
  | none => false
  | some r =>
      (afterLit "journey" r).isSome ||
      (match r with
       | [] => false
       | _ :: r2 => (afterLit "journey" r2).isSome)

/-- Match `deep.?seek` at a position. -/
def deepseekAt (s : List Char) : Bool :=
  match afterLit "deep" s with
  | none => false
  | some r =>
      (afterLit "seek" r).isSome ||
      (match r with
       | [] => false
       | _ :: r2 => (afterLit "seek" r2).isSome)

/-- Match `kling.?ai` at a position. -/
def klingDotAiAt (s : List Char) : Bool :=
  match afterLit "kling" s with
  | none => false
  | some r =>
      (afterLit "ai" r).isSome ||
      (match r with
       | [] => false
       | _ :: r2 => (afterLit "ai" r2).isSome)

/-- Match `kl(?:ing)?\s*ai` at a position. `\s*` before a non-space
literal is equivalent to consuming all whitespace greedily. -/
def klAiAt (s : List Char) : Bool :=
  match afterLit "kl" s with
  | none => false
  | some r =>
      (afterLit "ai" (r.dropWhile pyIsSpace)).isSome ||
      (match afterLit "ing" r with
       | none => false
       | some r2 => (afterLit "ai" (r2.dropWhile pyIsSpace)).isSome)

/-- Match `gpt-\d` at a position. -/
def gptDigitAt (s : List Char) : Bool :=
  match afterLit "gpt-" s with
  | none => false
  | some [] => false
  | some (c :: _) => c.isDigit

/- ### AI tool standardization: `tool_standardization`, `_clean_ai_tools` -/

/-- `QuestionnaireCleaner.tool_standardization`: the ordered
regex → canonical-label rewrite rules, each regex compiled to its
`re.search` test (the values are already lowercased, so `re.IGNORECASE`
is inert). -/
def tool_standardization : List ((List Char → Bool) × String) :=
  [ (searchFrom chatGptAt, "ChatGPT"),
    (searchFrom poeAt, "Poe"),
    (searchFrom canvaAt, "Canva"),
    (searchFrom midjourneyAt, "Midjourney"),
    (searchFrom deepseekAt, "Deepseek"),
    (searchFrom klingDotAiAt, "Kling AI"),
    (containsLit "copilot", "Copilot"),
    (containsLit "gamma", "Gamma"),
    (searchFrom klAiAt, "Kling AI"),
    (containsLit "openai", "ChatGPT"),
    (searchFrom gptDigitAt, "ChatGPT") ]

/-- The guard of `_standardize_tool`:
`tool_name.lower() in ('nan', 'none', '')` (before stripping). -/
def toolGuard (s : String) : Bool :=
  pyLower s = "nan" || pyLower s = "none" || pyLower s = ""

/-- `QuestionnaireCleaner._clean_ai_tools` on one cell
(`_standardize_tool`): non-strings and the guard values give
`"Unknown"`; otherwise lowercase + strip, first matching rewrite rule
wins, and with no match the value is title-cased. -/
def standardize_tool : Cell → String
  | .str s =>
      if toolGuard s then "Unknown"
      else
        let t := pyStrip (pyLower s)
        match tool_standardization.find? (fun p => p.1 t.data) with
        | some p => p.2
        | none => pyTitle t
  | _ => "Unknown"

/- ### Suggestions: `_clean_suggestions` and `_categorize_suggestions` -/

/-- The alternatives of the anchored pattern
`^(no|none|n/a|not|nothing|nil|nan|null|undefined)` in Python's
left-to-right alternation order. -/
def noSugAlternatives : List String :=
  ["no", "none", "n/a", "not", "nothing", "nil", "nan", "null", "undefined"]

/-- The first alternative that matches at the start of the text, returning
the unmatched remainder (Python `re` alternation is leftmost-first, and
`re.sub` replaces only the matched span). -/
def firstAltRest : List String → List Char → Option (List Char)
  | [], _ => none
  | a :: rest, s =>
      match afterLit a s with
      | some r => some r
      | none => firstAltRest rest s

/-- A character kept by the filter `.replace(r'[^\w\s.,;!?]', '', regex=True)`. -/
def keepSuggestionChar (c : Char) : Bool :=
  isWordChar c || pyIsSpace c || c = '.' || c = ',' || c = ';' || c = '!' || c = '?'

/-- `QuestionnaireCleaner._clean_suggestions` on one cell:
`astype(str)` (missing renders as `"nan"`, numbers through the pandas
float renderer `floatRepr`), strip, lowercase, whitespace-only values
become missing, characters outside `[\w\s.,;!?]` are removed, then
`re.sub` of the anchored no-suggestion pattern writes `"No suggestions"`
over the matched prefix. -/
def clean_suggestion_cell (floatRepr : ℚ → String) (c : Cell) : Cell :=
  let s0 := match c with
    | .str s => s
    | .num q => floatRepr q
    | .missing => "nan"
  let s1 := pyLower (pyStrip s0)
  if s1 = "" then .missing
  else
    let s2 := s1.data.filter keepSuggestionChar
    match firstAltRest noSugAlternatives s2 with
    | some r => .str ("No suggestions" ++ ⟨r⟩)
    | none => .str ⟨s2⟩

/-- `QuestionnaireCleaner.suggestion_patterns`: the ordered category
patterns, each an alternation of plain keywords, so `re.search` is
substring containment of some keyword. -/
def suggestion_patterns : List (String × List String) :=
  [ ("no_suggestion",
      ["no", "none", "n/a", "not", "nothing", "nil", "nan", "null", "undefined"]),
    ("training",
      ["train", "guide", "tutorial", "doc", "manual", "help", "learn", "educate"]),
    ("features",
      ["feature", "function", "tool", "option", "capability", "improve", "enhance", "add"]),
    ("integration",
      ["integrat", "connect", "api", "system", "plugin", "bridge", "import", "export"]),
    ("cost",
      ["cost", "price", "cheap", "afford", "license", "subscription", "fee", "pay"]),
    ("accuracy",
      ["reliable", "accurate", "quality", "precise", "correct", "better", "trust", "depend"]) ]

/-- `QuestionnaireCleaner._categorize_suggestions` on one cell
(`_categorize`): non-strings and the literal `"no suggestions"` sentinel
give `"No suggestions"`; otherwise the first category whose pattern fires
wins and its key is rendered with `key.replace('_', ' ').title()`; with
no match the category is `"Other suggestions"`. -/
def categorize_suggestion : Cell → String
  | .str s =>
      if pyLower s = "no suggestions" then "No suggestions"
      else
        let t := pyLower s
        match suggestion_patterns.find? (fun p => p.2.any (fun kw => containsLit kw t.data)) with
        | some p => pyTitle (pyReplaceChar '_' ' ' p.1)
        | none => "Other suggestions"
  | _ => "No suggestions"

/- ### Department and usage frequency -/

/-- The department step of `clean_data`:
`df['department'].fillna('Unknown').str.title()` on one cell. `fillna`
writes `"Unknown"` over missing; the `.str` accessor turns a non-string
element (a number) into NaN; strings are title-cased, with no trimming. -/
def clean_department_cell : Cell → Cell
  | .missing => .str "Unknown"
  | .str s => .str (pyTitle s)
  | .num _ => .missing

/-- `freq_map` of `_clean_usage_frequency`. -/
def freq_map : List (String × String) :=
  [ ("daily", "Daily"), ("weekly", "Weekly"), ("monthly", "Monthly"),
    ("rarely", "Rarely"), ("never", "Never") ]

/-- `QuestionnaireCleaner._clean_usage_frequency` on one cell:
`series.str.lower().map(freq_map).fillna(series.str.title())`. A string
is lowercased and looked up by exact key; on a miss it falls back to the
title-cased original. Missing and non-string cells are NaN on both sides
of the `fillna`, so they stay missing. -/
def clean_usage_frequency_cell : Cell → Cell
  | .str s =>
      match freq_map.find? (fun p => p.1 = pyLower s) with
      | some p => .str p.2
      | none => .str (pyTitle s)
  | _ => .missing

/- ### The `clean_data` pipeline -/

/-- A table: an ordered list of named columns (duplicate names allowed,
as in a pandas DataFrame). -/
abbrev Table := List (String × List Cell)

/-- The external pandas adapters `clean_data` relies on: best-effort
datetime parsing plus formatting (`pd.to_datetime(..., errors='coerce')
.dt.strftime(...)`), numeric parsing of strings (`pd.to_numeric`), and
the string rendering of floats (`astype(str)`). -/
structure Adapters where
  toDatetime : Cell → Cell
  numParse : String → Option ℚ
  floatRepr : ℚ → String

/-- The per-column value cleaning of `clean_data`, dispatched on the
resolved column name; columns with any other name are left untouched. -/
def cleanColumn (ad : Adapters) (name : String) (vals : List Cell) : List Cell :=
  if name = "timestamp" then vals.map ad.toDatetime
  else if name = "department" then vals.map clean_department_cell
  else if name = "ai_tool" then vals.map (fun c => .str (standardize_tool c))
  else if name = "usage_frequency" then vals.map clean_usage_frequency_cell
  else if name = "ease_of_use" then clean_ratings ad.numParse vals
  else if name = "time_saved" then clean_ratings ad.numParse vals
  else if name = "suggestions" then vals.map (clean_suggestion_cell ad.floatRepr)
  else vals

/-- `df[name] = vals`: overwrite the column if the name exists, otherwise
append it at the end. -/
def setColumn (cols : Table) (name : String) (vals : List Cell) : Table :=
  if cols.any (fun c => c.1 = name) then
    cols.map (fun c => if c.1 = name then (c.1, vals) else c)
  else cols ++ [(name, vals)]

/-- The values of the first column with the given name. -/
def firstColVals (cols : Table) (name : String) : List Cell :=
  ((cols.find? (fun c => c.1 = name)).map (·.2)).getD []

/-- `df.loc[:, ~df.columns.duplicated()]`: keep each column whose name has
not appeared earlier. -/
def dedupColsKeepFirst (cols : Table) : Table :=
  (cols.foldl
    (fun (acc : Table) c =>
      if acc.any (fun d => d.1 = c.1) then acc else acc ++ [c])
    [])

/-- Is the cell a string? (Decides a column's pandas dtype together with
`isNumCell`.) -/
def isStrCell : Cell → Bool
  | .str _ => true
  | _ => false

/-- Is the cell a number? -/
def isNumCell : Cell → Bool
  | .num _ => true
  | _ => false

/-- The column names `clean_data` selects and transforms. When one of
these is carried by two columns after renaming, `df_clean[name]` returns
a DataFrame and the branch raises instead of cleaning. (`job_role` and
`purpose` are canonical fields but are never selected by `clean_data`.) -/
def treatedNames : List String :=
  ["timestamp", "department", "ai_tool", "usage_frequency",
   "ease_of_use", "time_saved", "suggestions"]

/-- How many columns of the table carry the name. -/
def countName (t : Table) (name : String) : Nat :=
  (t.filter (fun c => c.1 = name)).length

/-- Whether cleaning a single (non-duplicated) treated column raises.
The `.str` accessor demands object dtype, and a pandas column has object
dtype iff it holds at least one string (an empty loaded column is also
object). The department branch runs `fillna('Unknown')` before
`.str.title()`, so a column with a missing value is converted to object
by the fill and survives; a non-empty all-numeric column keeps its
numeric dtype and the accessor raises. The usage-frequency branch calls
`.str.lower()` directly, so any non-empty column without a string value
raises. The remaining branches (`to_datetime`/`errors='coerce'`,
`apply`, `to_numeric`/`errors='coerce'`, `astype(str)`) accept any
dtype and do not raise. -/
def columnRaises (name : String) (vals : List Cell) : Bool :=
  if name = "department" then !vals.isEmpty && vals.all isNumCell
  else if name = "usage_frequency" then
    !vals.isEmpty && vals.all (fun c => !(isStrCell c))
  else false

/-- The body of `clean_data` on a present table: rename headers
(`_standardize_columns`); if a treated name is now carried by more than
one column, selecting it yields a DataFrame and its cleaning branch
raises (an `AttributeError` for the `.str`-based branches, sibling
exception types for the others — modelled by the single error token
`"AttributeError"`); if a treated column's dtype makes a `.str` accessor
raise, likewise; otherwise clean each column by its resolved name,
derive `suggestion_category` from the cleaned `suggestions` column when
present, and drop later duplicate-named columns. -/
def cleanPipeline (ad : Adapters) (t : Table) : Except String Table :=
  let renamed : Table := t.map (fun c => (resolveHeader c.1, c.2))
  if treatedNames.any (fun n => 1 < countName renamed n) then
    .error "AttributeError"
  else if renamed.any (fun c => columnRaises c.1 c.2) then
    .error "AttributeError"
  else
    let cleaned : Table := renamed.map (fun c => (c.1, cleanColumn ad c.1 c.2))
    let withCat : Table :=
      if cleaned.any (fun c => c.1 = "suggestions") then
        setColumn cleaned "suggestion_category"
          ((firstColVals cleaned "suggestions").map
            (fun c => .str (categorize_suggestion c)))
      else cleaned
    .ok (dedupColsKeepFirst withCat)

/-- `QuestionnaireCleaner.clean_data`: `None` input raises
`ValueError("No data provided")` — the method itself has no emptiness
check — and a present table runs the pipeline, which succeeds unless a
treated column's selection or `.str` accessor raises. -/
def clean_data (ad : Adapters) (df : Option Table) : Except String Table :=
  match df with
  | none => .error "No data provided"
  | some t => cleanPipeline ad t

/-- The headers of a table, in order. -/
def headersOf (t : Table) : List String := t.map (·.1)

/-- Concrete adapters for closed evaluations: a date parser that passes
cells through, a numeric parser that parses nothing, a float renderer
returning the empty string. Used only where the adapters are irrelevant
to the cells under test. -/
def trivAdapters : Adapters :=
  { toDatetime := fun c => c, numParse := fun _ => none, floatRepr := fun _ => "" }

/- ### Helper lemmas -/

/-- One cleaned rating cell: the clip of the coerced numeric. -/
lemma clean_ratings_cons (parse : String → Option ℚ) (c : Cell) (cs : List Cell) :
    clean_ratings parse (c :: cs)
      = clipCell 1 5 (toNumericCell parse c) :: clean_ratings parse cs := rfl

lemma clean_ratings_nil (parse : String → Option ℚ) :
    clean_ratings parse [] = [] := rfl

/-- A value already in `[1, 5]` is fixed by the clamp. -/
lemma clamp_fix {x : ℚ} (h1 : 1 ≤ x) (h5 : x ≤ 5) : max 1 (min x 5) = x := by
  rw [min_eq_left h5, max_eq_right h1]

/-- Every cleaned rating cell is missing or a number in `[1, 5]`. -/
lemma ratingCell_inRange (parse : String → Option ℚ) (c : Cell) :
    ratingInRange (clipCell 1 5 (toNumericCell parse c)) = true := by
  have hq : ∀ q : ℚ, ratingInRange (.num (max 1 (min q 5))) = true := by
    intro q
    simp only [ratingInRange, Bool.and_eq_true, decide_eq_true_eq]
    exact ⟨le_max_left 1 _, max_le (by norm_num) (min_le_right q 5)⟩
  cases c with
  | str s =>
      simp only [toNumericCell]
      cases parse s with
      | some q => exact hq q
      | none => rfl
  | num q => exact hq q
  | missing => rfl

/-- Cleaning a rating cell twice is the same as cleaning it once. -/
lemma ratingCell_idem (parse : String → Option ℚ) (c : Cell) :
    clipCell 1 5 (toNumericCell parse (clipCell 1 5 (toNumericCell parse c)))
      = clipCell 1 5 (toNumericCell parse c) := by
  have hq : ∀ q : ℚ,
      clipCell 1 5 (toNumericCell parse (.num (max 1 (min q 5))))
        = .num (max 1 (min q 5)) := by
    intro q
    simp only [toNumericCell, clipCell, Cell.num.injEq]
    exact clamp_fix (le_max_left 1 _) (max_le (by norm_num) (min_le_right q 5))
  cases c with
  | str s =>
      simp only [toNumericCell]
      cases parse s with
      | some q => exact hq q
      | none => rfl
  | num q => exact hq q
  | missing => rfl

/-- `clean_ratings` outputs satisfy `ratingInRange` throughout. -/
lemma clean_ratings_all_inRange (parse : String → Option ℚ) (col : List Cell) :
    (clean_ratings parse col).all ratingInRange = true := by
  induction col with
  | nil => rfl
  | cons c cs ih =>
      rw [clean_ratings_cons, List.all_cons, ratingCell_inRange, ih]
      rfl

/- ### C3: scale-shift heuristic for ratings -/

/-- C3 counterexample: on the `ease_of_use` values `[0,1,2,3,4]`,
`_clean_ratings` produces `[1,1,2,3,4]` (0 is clamped to 1), not the
claimed scale-shifted `[1,2,3,4,5]`. -/
theorem c3_counterexample :
    clean_ratings (fun _ => none) [.num 0, .num 1, .num 2, .num 3, .num 4]
        = [.num 1, .num 1, .num 2, .num 3, .num 4]
      ∧ clean_ratings (fun _ => none) [.num 0, .num 1, .num 2, .num 3, .num 4]
        ≠ [.num 1, .num 2, .num 3, .num 4, .num 5] := by
  constructor
  · decide
  · decide

/-- C3 amended: `_clean_ratings` applies no scale-shift heuristic — the
`ease_of_use` input `[0,1,2,3,4]` becomes `[1,1,2,3,4]` by clamping;
non-numeric input becomes missing, and every output value is missing or a
number in the closed interval `[1,5]`. -/
theorem c3_amended_thm :
    clean_ratings (fun _ => none) [.num 0, .num 1, .num 2, .num 3, .num 4]
        = [.num 1, .num 1, .num 2, .num 3, .num 4]
      ∧ (∀ (parse : String → Option ℚ) (s : String), parse s = none →
          clean_ratings parse [.str s] = [.missing])
      ∧ (∀ (parse : String → Option ℚ) (col : List Cell),
          (clean_ratings parse col).all ratingInRange = true) := by
  refine ⟨by decide, ?_, clean_ratings_all_inRange⟩
  intro parse s h
  rw [clean_ratings_cons, clean_ratings_nil]
  simp [toNumericCell, h, clipCell]

/-- C3 witness: a concrete non-numeric rating cell becomes missing. -/
theorem c3_witness :
    clean_ratings (fun _ => none) [.str "abc"] = [.missing] :=
  c3_amended_thm.2.1 (fun _ => none) "abc" rfl

/- ### C6: idempotence and range of rating normalization -/

/-- C6: rating normalization is idempotent — cleaning an
already-cleaned rating column yields the same values — and every output
is missing or a number in `[1,5]`. -/
theorem c6_idempotent :
    (∀ (parse : String → Option ℚ) (col : List Cell),
        clean_ratings parse (clean_ratings parse col) = clean_ratings parse col)
      ∧ (∀ (parse : String → Option ℚ) (col : List Cell),
          (clean_ratings parse col).all ratingInRange = true) := by
  refine ⟨?_, clean_ratings_all_inRange⟩
  intro parse col
  induction col with
  | nil => rfl
  | cons c cs ih =>
      rw [clean_ratings_cons, clean_ratings_cons, ratingCell_idem, ih]

/- ### C1: header collision handling -/

/-- The fold of `dedupColsKeepFirst` keeps header lists duplicate-free. -/
lemma dedup_fold_nodup (l : Table) :
    ∀ acc : Table, (headersOf acc).Nodup →
      (headersOf (l.foldl
        (fun (acc : Table) c =>
          if acc.any (fun d => d.1 = c.1) then acc else acc ++ [c]) acc)).Nodup := by
  induction l with
  | nil => intro acc h; exact h
  | cons c cs ih =>
      intro acc h
      rw [List.foldl_cons]
      by_cases hc : acc.any (fun d => d.1 = c.1)
      · rw [if_pos hc]; exact ih acc h
      · rw [if_neg hc]
        apply ih
        have hnot : c.1 ∉ headersOf acc := by
          intro hmem
          apply hc
          rw [List.any_eq_true]
          rcases List.mem_map.mp hmem with ⟨d, hd, hde⟩
          exact ⟨d, hd, by simpa using hde⟩
        rw [show headersOf (acc ++ [c]) = headersOf acc ++ [c.1] from by
          simp [headersOf]]
        rw [List.nodup_append]
        refine ⟨h, List.nodup_singleton _, fun a ha hb => ?_⟩
        rw [List.mem_singleton.mp hb] at ha
        exact hnot ha

/-- Whenever `cleanPipeline` succeeds, its output header list holds no
two identical names. -/
lemma cleanPipeline_ok_nodup (ad : Adapters) (t : Table) (r : Table)
    (h : cleanPipeline ad t = .ok r) : (headersOf r).Nodup := by
  simp only [cleanPipeline] at h
  split at h
  · exact absurd h (by simp)
  · split at h
    · exact absurd h (by simp)
    · simp only [Except.ok.injEq] at h
      subst h
      exact dedup_fold_nodup _ [] (by simp [headersOf])

/-- C1 counterexample: the pass-through headers `"Comments"` and
`"comments "` are output unchanged, not as `"comments"` and
`"comments_2"` — no sanitization and no collision suffixing happens. -/
theorem c1_counterexample :
    clean_data trivAdapters (some [("Comments", []), ("comments ", [])])
        = .ok [("Comments", []), ("comments ", [])]
      ∧ ["Comments", "comments "] ≠ ["comments", "comments_2"] := by
  constructor
  · rfl
  · decide

/-- C1 amended: no header ever receives a `<name>_2` suffix. Pass-through
headers keep their original, unsanitized names, so `"Comments"` and
`"comments "` never collide and are output unchanged. When resolution
makes two columns share a treated canonical name (`"department"` and
`"dept"`), `clean_data` raises — the duplicated selection returns a
DataFrame and the `.str`-based cleaning fails with `AttributeError` —
rather than suffixing or merging. When cleaning does succeed, the output
header set contains no two identical names, because later columns that
duplicate an earlier untreated name (two literal `"Comments"` columns)
are dropped at the end, first occurrence kept. -/
theorem c1_amended_thm :
    (∀ (ad : Adapters) (t r : Table),
        clean_data ad (some t) = .ok r → (headersOf r).Nodup)
      ∧ clean_data trivAdapters (some [("Comments", []), ("comments ", [])])
        = .ok [("Comments", []), ("comments ", [])]
      ∧ clean_data trivAdapters
          (some [("department", [.missing]), ("dept", [.str "x"])])
        = .error "AttributeError"
      ∧ clean_data trivAdapters
          (some [("Comments", [.missing]), ("Comments", [.str "x"])])
        = .ok [("Comments", [.missing])] := by
  refine ⟨?_, rfl, rfl, rfl⟩
  intro ad t r h
  exact cleanPipeline_ok_nodup ad t r h

/-- C1 witness: the no-duplicates conjunct applied to the concrete
two-column pass-through table. -/
theorem c1_witness :
    (headersOf [("Comments", ([] : List Cell)), ("comments ", [])]).Nodup :=
  c1_amended_thm.1 trivAdapters [("Comments", []), ("comments ", [])]
    [("Comments", []), ("comments ", [])] rfl

/- ### C2: emptiness rejection -/

/-- C2 counterexample: `clean_data` succeeds on a table with zero rows
and on a table with zero columns — no `EmptyInputError` is raised for a
structurally empty table. -/
theorem c2_counterexample :
    clean_data trivAdapters (some [("col1", [])]) = .ok [("col1", [])]
      ∧ clean_data trivAdapters (some []) = .ok [] := by
  exact ⟨rfl, rfl⟩

/-- C2 amended: `clean_data` has no emptiness check — the only
structural rejection is a missing table (`None` input, error
`"No data provided"`), and a table with zero rows or zero columns is
cleaned successfully with a full result, under any adapters. (The
empty-table rejection of this codebase lives in `load_data`.) Success is
not universal for present tables, though: a table whose headers resolve
to a duplicated treated name, such as `"department"` plus `"dept"`,
makes `clean_data` raise `AttributeError`, as does a `.str` accessor on
a non-object-dtype column, such as an all-numeric `usage_frequency`. -/
theorem c2_amended_thm :
    clean_data trivAdapters none = .error "No data provided"
      ∧ (∀ ad : Adapters, clean_data ad (some [("col1", [])]) = .ok [("col1", [])])
      ∧ (∀ ad : Adapters, clean_data ad (some []) = .ok [])
      ∧ clean_data trivAdapters (some [("department", [.num 1]), ("dept", [.num 2])])
        = .error "AttributeError"
      ∧ clean_data trivAdapters (some [("usage_frequency", [.num 3])])
        = .error "AttributeError" := by
  exact ⟨rfl, fun ad => rfl, fun ad => rfl, rfl, rfl⟩

/- ### C4: the "n/a" suggestion (code bug) -/

/-- C4, evaluating the code at the failing input: the character filter
removes `/` before the no-suggestion pattern runs, so `"n/a"` is reduced
to `"na"`, which matches no alternative of
`^(no|none|n/a|not|nothing|nil|nan|null|undefined)` — the `n/a`
alternative of the code's own pattern is unreachable. The cleaned value
stays `"na"` (never the label `"No suggestions"`, never title-cased) and
`_categorize_suggestions` files it under `"Other suggestions"`. -/
theorem c4_code_eval :
    clean_suggestion_cell (fun _ => "") (.str "n/a") = .str "na"
      ∧ categorize_suggestion (.str "na") = "Other suggestions"
      ∧ (Cell.str "na" ≠ Cell.str "No suggestions"
          ∧ "Other suggestions" ≠ "No suggestions") := by
  refine ⟨by decide, by decide, by decide, by decide⟩

/- ### C5: the category set of suggestion classification -/

/-- C5 counterexample: the suggestion `"train me"` is classified as
`"Training"` (the pattern key `training` rendered by
`key.replace('_', ' ').title()`), which is not one of the seven category
labels the claim fixes. -/
theorem c5_counterexample :
    categorize_suggestion (.str "train me") = "Training"
      ∧ "Training" ∉ ["No suggestions", "Training/guidance",
          "Feature improvements", "Better integration", "Cost reduction",
          "Improved accuracy", "Other suggestions"] := by
  refine ⟨by decide, by decide⟩

/-- C5 amended: classification is total and deterministic (it is a pure
function of the cell), but its closed category set is
`{No suggestions, No Suggestion, Training, Features, Integration, Cost,
Accuracy, Other suggestions}` — the labels are the pattern keys rendered
by `key.replace('_', ' ').title()`, so the `no_suggestion` pattern yields
`"No Suggestion"` rather than re-using the `"No suggestions"` sentinel,
and none of the spec's composite labels (`Training/guidance`, …) occur. -/
theorem c5_amended_thm :
    ∀ c : Cell, categorize_suggestion c ∈
      ["No suggestions", "No Suggestion", "Training", "Features",
       "Integration", "Cost", "Accuracy", "Other suggestions"] := by
  intro c
  cases c with
  | str s =>
      rw [categorize_suggestion]
      by_cases hs : pyLower s = "no suggestions"
      · rw [if_pos hs]
        exact List.mem_cons_self _ _
      · rw [if_neg hs]
        dsimp only
        split
        · next p hf =>
            have hp := List.mem_of_find?_eq_some hf
            fin_cases hp <;> decide
        · next hf => decide
  | num q => exact List.mem_cons_self _ _
  | missing => exact List.mem_cons_self _ _

/- ### C7: stability of header resolution -/

/-- C7 counterexample: `"AI Tool"` resolves to the canonical field
`ai_tool`, but the internal-whitespace variant `" ai   tool "` does not —
the normalized key turns each space into an underscore without collapsing
runs, so it gives `"ai___tool"` and the header passes through unchanged. -/
theorem c7_counterexample :
    resolveHeader "AI Tool" = "ai_tool"
      ∧ resolveHeader " ai   tool " = " ai   tool "
      ∧ " ai   tool " ≠ "ai_tool" := by
  refine ⟨by decide, by decide, by decide⟩

/-- C7 amended: resolution of a matched header depends only on its
normalized key (lowercase, strip, each space replaced by an underscore):
two headers with equal keys resolve identically whenever one matches, so
case and leading/trailing-whitespace variants such as `"AI Tool"` and
`"ai_tool"` resolve to the same field; but internal whitespace runs are
not collapsed, so `" ai   tool "` matches nothing and passes through. -/
theorem c7_amended_thm :
    (∀ h1 h2 : String, normKey h1 = normKey h2 →
        (resolveKey (normKey h1)).isSome = true →
        resolveHeader h1 = resolveHeader h2)
      ∧ resolveHeader "AI Tool" = "ai_tool"
      ∧ resolveHeader "ai_tool" = "ai_tool"
      ∧ resolveHeader " ai   tool " = " ai   tool " := by
  refine ⟨?_, by decide, by decide, by decide⟩
  intro h1 h2 hk hsome
  rw [resolveHeader, resolveHeader, ← hk]
  cases hv : resolveKey (normKey h1) with
  | none => rw [hv] at hsome; simp at hsome
  | some v => rfl

/-- C7 witness: the stability conjunct applied at the concrete pair
`"AI Tool"`, `"ai_tool"`. -/
theorem c7_witness : resolveHeader "AI Tool" = resolveHeader "ai_tool" :=
  c7_amended_thm.1 "AI Tool" "ai_tool" (by decide) (by decide)

/- ### C8: AI tool standardization -/

/-- `List.find?` over a split list: with every earlier predicate test
false and the split element's test true, the split element is found. -/
lemma find?_first {α : Type} (pred : α → Bool) :
    ∀ (l1 : List α) (p : α) (l2 : List α),
      (∀ q ∈ l1, pred q = false) → pred p = true →
      List.find? pred (l1 ++ p :: l2) = some p := by
  intro l1
  induction l1 with
  | nil =>
      intro p l2 _ hp
      rw [List.nil_append]
      exact List.find?_cons_of_pos _ hp
  | cons q l1 ih =>
      intro p l2 hall hp
      rw [List.cons_append, List.find?_cons_of_neg]
      · exact ih p l2 (fun r hr => hall r (List.mem_cons_of_mem q hr)) hp
      · simp [hall q (List.mem_cons_self q l1)]

/-- C8: `_clean_ai_tools` lowercases (and strips) the value and applies
the ordered rewrite rules first-match-wins — `"ChatGPT-4"` normalizes to
`"ChatGPT"`; if no rule fires, the value is title-cased and kept, never
dropped. -/
theorem c8_tool_standardization :
    standardize_tool (.str "ChatGPT-4") = "ChatGPT"
      ∧ (∀ (s : String) (l1 : List ((List Char → Bool) × String))
            (p : (List Char → Bool) × String)
            (l2 : List ((List Char → Bool) × String)),
          tool_standardization = l1 ++ p :: l2 →
          toolGuard s = false →
          (∀ q ∈ l1, q.1 (pyStrip (pyLower s)).data = false) →
          p.1 (pyStrip (pyLower s)).data = true →
          standardize_tool (.str s) = p.2)
      ∧ (∀ s : String, toolGuard s = false →
          (∀ q ∈ tool_standardization, q.1 (pyStrip (pyLower s)).data = false) →
          standardize_tool (.str s) = pyTitle (pyStrip (pyLower s))) := by
  refine ⟨by decide, ?_, ?_⟩
  · intro s l1 p l2 hsplit hg hall hp
    rw [standardize_tool, if_neg (by simp [hg])]
    dsimp only
    rw [hsplit, find?_first _ l1 p l2 hall hp]
  · intro s hg hall
    rw [standardize_tool, if_neg (by simp [hg])]
    dsimp only
    rw [List.find?_eq_none.mpr (fun q hq => by simp [hall q hq])]

/-- C8 witness: the fallback conjunct applied at the concrete
unrecognized value `"My Tool"`. -/
theorem c8_witness : standardize_tool (.str "My Tool") = "My Tool" := by
  have h := c8_tool_standardization.2.2 "My Tool" (by decide) (by decide)
  rw [h]
  decide

/- ### C9: categorical text fields -/

/-- C9 counterexample: the department value `"  it  "` is title-cased
without any trimming, giving `"  It  "`, not the claimed `"It"`. -/
theorem c9_counterexample :
    clean_department_cell (.str "  it  ") = .str "  It  "
      ∧ clean_department_cell (.str "  it  ") ≠ .str "It" := by
  refine ⟨by decide, by decide⟩

/-- C9 amended: `clean_data` substitutes `"Unknown"` for missing
department values and title-cases department strings without trimming
(`"  it  "` → `"  It  "`); `job_role` is not normalized at all (its
column passes through `clean_data` untouched); `usage_frequency` is
mapped through the lowercased frequency table with a title-case fallback,
and its missing values stay missing instead of becoming `"Unknown"`. -/
theorem c9_amended_thm :
    clean_department_cell .missing = .str "Unknown"
      ∧ (∀ s : String, clean_department_cell (.str s) = .str (pyTitle s))
      ∧ clean_department_cell (.str "  it  ") = .str "  It  "
      ∧ (∀ (ad : Adapters) (vals : List Cell), cleanColumn ad "job_role" vals = vals)
      ∧ clean_usage_frequency_cell .missing = .missing
      ∧ clean_usage_frequency_cell (.str "DAILY") = .str "Daily" := by
  refine ⟨rfl, fun s => rfl, by decide, fun ad vals => rfl, rfl, by decide⟩

/- ### C10: the ai_tool guard values -/

/-- C10: `_clean_ai_tools` maps every non-string cell, and every string
whose lowercased (untrimmed) form is `"nan"`, `"none"`, or empty, to the
literal label `"Unknown"` — it is a total function, never producing
missing and never raising. -/
theorem c10_tool_unknown :
    (∀ q : ℚ, standardize_tool (.num q) = "Unknown")
      ∧ standardize_tool .missing = "Unknown"
      ∧ (∀ s : String,
          pyLower s = "nan" ∨ pyLower s = "none" ∨ pyLower s = "" →
          standardize_tool (.str s) = "Unknown") := by
  refine ⟨fun q => rfl, rfl, ?_⟩
  intro s hs
  rw [standardize_tool, if_pos]
  rcases hs with h | h | h <;> simp [toolGuard, h]

/-- C10 witness: the guard conjunct applied at the concrete value
`"None"`. -/
theorem c10_witness : standardize_tool (.str "None") = "Unknown" :=
  c10_tool_unknown.2.2 "None" (Or.inr (Or.inl (by decide)))
